import Mathlib

/-!
Verification of the snake-game engine in `src/snake.py`.

The engine state (`snake`, `snake_dir`, `food`, `score`, `running`) and its
per-tick update in `run_game` are shallowly embedded below.  Python integer
grid coordinates become `Int`; the random generator calls
`random.randint(0, hi)` are modelled by explicit natural-number inputs
`rx`, `ry` with the range `rx ≤ hi` carried as a hypothesis where needed.
-/

namespace Snake

/-- Board width, `WIDTH = 600` (snake.py line 10). -/
def WIDTH : Int := 600

/-- Board height, `HEIGHT = 400` (snake.py line 10). -/
def HEIGHT : Int := 400

/-- Grid cell edge, `GRID_SIZE = 20` (snake.py line 11). -/
def GRID_SIZE : Int := 20

/-- A grid cell: a pair of integer pixel coordinates, as in the Python tuples. -/
abbrev Cell := Int × Int

/-- The mutable game state threaded through `run_game`. -/
structure GameState where
  snake : List Cell
  snake_dir : Cell
  food : Cell
  score : Nat
  running : Bool
deriving DecidableEq, Repr

/-- Food placement, snake.py lines 46-47 and 154-155:
`(random.randint(0, WIDTH // GRID_SIZE - 1) * GRID_SIZE,
  random.randint(0, HEIGHT // GRID_SIZE - 1) * GRID_SIZE)`.
The two `randint` outputs are the explicit inputs `rx`, `ry`. -/
def spawn_food (rx ry : Nat) : Cell :=
  ((rx : Int) * GRID_SIZE, (ry : Int) * GRID_SIZE)

/-- `init_game` (snake.py lines 34-55), minus the wall-clock timestamp:
snake `[(100,100),(90,100),(80,100)]`, direction `(GRID_SIZE, 0)`,
random food, score `0`; the loop then starts with `running = True`. -/
def init_game (rx ry : Nat) : GameState :=
  { snake := [(100, 100), (90, 100), (80, 100)]
    snake_dir := (GRID_SIZE, 0)
    food := spawn_food rx ry
    score := 0
    running := true }

/-- The four arrow keys handled in the event loop (snake.py lines 130-137). -/
inductive Key where
  | up
  | down
  | left
  | right
deriving DecidableEq, Repr

/-- The direction a key requests (pygame's y axis grows downward). -/
def dir_of : Key → Cell
  | Key.up => (0, -GRID_SIZE)
  | Key.down => (0, GRID_SIZE)
  | Key.left => (-GRID_SIZE, 0)
  | Key.right => (GRID_SIZE, 0)

/-- One `KEYDOWN` event, snake.py lines 129-137: each branch replaces
`snake_dir` with the requested direction unless the current direction is
the exact reverse of the request. -/
def handle_key (k : Key) (snake_dir : Cell) : Cell :=
  match k with
  | Key.up => if snake_dir ≠ (0, GRID_SIZE) then (0, -GRID_SIZE) else snake_dir
  | Key.down => if snake_dir ≠ (0, -GRID_SIZE) then (0, GRID_SIZE) else snake_dir
  | Key.left => if snake_dir ≠ (GRID_SIZE, 0) then (-GRID_SIZE, 0) else snake_dir
  | Key.right => if snake_dir ≠ (-GRID_SIZE, 0) then (GRID_SIZE, 0) else snake_dir

/-- The exact opposite of a direction vector. -/
def opposite (d : Cell) : Cell := (-d.1, -d.2)

/-- `new_head` of a tick, snake.py line 140:
`(snake[0][0] + snake_dir[0], snake[0][1] + snake_dir[1])`.
In the program the snake is never empty; the `[]` case is a dummy. -/
def new_head_of (s : GameState) : Cell :=
  match s.snake with
  | [] => (0, 0)
  | h :: _ => (h.1 + s.snake_dir.1, h.2 + s.snake_dir.2)

/-- The wall-collision test, snake.py lines 144-145. -/
def out_of_bounds (c : Cell) : Prop :=
  c.1 < 0 ∨ c.1 ≥ WIDTH ∨ c.2 < 0 ∨ c.2 ≥ HEIGHT

instance : DecidablePred out_of_bounds := fun c => by
  unfold out_of_bounds
  infer_instance

/-- One iteration of the movement/collision/food part of the game loop,
snake.py lines 140-157, after the event handling:
* collisions (lines 142-146): self-collision or wall sets `running = False`;
* `snake.insert(0, new_head)` happens unconditionally (line 149);
* if `new_head == food` (lines 151-155): `score += 1` and the food is
  regenerated from two fresh `randint` outputs `rx`, `ry`;
* otherwise (lines 156-157): `snake.pop()` removes the tail. -/
def tick (s : GameState) (rx ry : Nat) : GameState :=
  let nh := new_head_of s
  { snake := if nh = s.food then nh :: s.snake else (nh :: s.snake).dropLast
    snake_dir := s.snake_dir
    food := if nh = s.food then spawn_food rx ry else s.food
    score := if nh = s.food then s.score + 1 else s.score
    running := if nh ∈ s.snake ∨ out_of_bounds nh then false else s.running }

/-- A food cell is valid when it lies in `[0, WIDTH) × [0, HEIGHT)` and is
aligned to the grid. -/
def food_ok (c : Cell) : Prop :=
  0 ≤ c.1 ∧ c.1 < WIDTH ∧ 0 ≤ c.2 ∧ c.2 < HEIGHT ∧
    c.1 % GRID_SIZE = 0 ∧ c.2 % GRID_SIZE = 0

/-- A state about to run into its own body: head `(20,20)` moving left
produces `new_head = (0,20)`, the second body cell. -/
def exSelfHit : GameState :=
  { snake := [(20, 20), (0, 20)], snake_dir := (-20, 0)
    food := (500, 300), score := 0, running := true }

/-- A plain state whose next head `(200,180)` is neither food nor body. -/
def exPlain : GameState :=
  { snake := [(200, 200), (180, 200)], snake_dir := (0, -20)
    food := (0, 0), score := 0, running := true }

/-- A state about to eat: next head `(120,100)` equals the food cell. -/
def exEat : GameState :=
  { snake := [(100, 100), (90, 100), (80, 100)], snake_dir := (GRID_SIZE, 0)
    food := (120, 100), score := 4, running := true }

/-- A state about to leave the board on the left: next head `(-20,100)`. -/
def exWallLeft : GameState :=
  { snake := [(0, 100), (20, 100)], snake_dir := (-20, 0)
    food := (300, 300), score := 0, running := true }

/-- A state about to leave the board on the right: next head `(600,100)`. -/
def exWallRight : GameState :=
  { snake := [(580, 100), (560, 100)], snake_dir := (GRID_SIZE, 0)
    food := (0, 0), score := 2, running := true }

/-- A state whose tick stays alive: next head `(120,100)` is free and
in bounds. -/
def exAlive : GameState :=
  { snake := [(100, 100), (90, 100), (80, 100)], snake_dir := (GRID_SIZE, 0)
    food := (500, 300), score := 0, running := true }

/-- A state where the food sits inside the body and the next head hits it:
head `(20,20)` moving right gives `(40,20)`, a body cell that also carries
the food. -/
def exFoodInBody : GameState :=
  { snake := [(20, 20), (40, 20), (40, 40)], snake_dir := (GRID_SIZE, 0)
    food := (40, 20), score := 7, running := true }

/-- Dropping the last element of a list keeps its head when the tail part
is nonempty. -/
theorem head_dropLast_cons {α : Type} (x : α) (l : List α) (h : l ≠ []) :
    ((x :: l).dropLast).head? = some x := by
  cases l with
  | nil => exact absurd rfl h
  | cons b t => rfl

/-- C1 counterexample: in `exSelfHit` the next head `(0,20)` lies in the
body, the tick ends the session, and yet the snake list is mutated that
tick, contradicting the claim that it is not mutated further. -/
theorem tick_self_collision_mutates_cex :
    new_head_of exSelfHit ∈ exSelfHit.snake ∧
    (tick exSelfHit 0 0).running = false ∧
    (tick exSelfHit 0 0).snake ≠ exSelfHit.snake := by decide

/-- C1 (amended): on a self-collision tick the session transitions to
Ended, but the snake is still mutated: the new head is inserted at the
front, and the tail is removed unless the new head equals the food. -/
theorem tick_self_collision (s : GameState) (rx ry : Nat)
    (hmem : new_head_of s ∈ s.snake) :
    (tick s rx ry).running = false ∧
    (tick s rx ry).snake =
      (if new_head_of s = s.food then new_head_of s :: s.snake
       else (new_head_of s :: s.snake).dropLast) := by
  constructor
  · simp only [tick]
    rw [if_pos (Or.inl hmem)]
  · rfl

/-- C1 witness: the amended theorem at the concrete state `exSelfHit`. -/
theorem tick_self_collision_witness :
    (tick exSelfHit 2 3).running = false ∧
    (tick exSelfHit 2 3).snake =
      (if new_head_of exSelfHit = exSelfHit.food
       then new_head_of exSelfHit :: exSelfHit.snake
       else (new_head_of exSelfHit :: exSelfHit.snake).dropLast) :=
  tick_self_collision exSelfHit 2 3 (by decide)

/-- C2 counterexample: the initial snake cells are spaced 10 units apart
horizontally, not one grid unit (20 units) as the claim states. -/
theorem init_game_spacing_cex :
    (init_game 0 0).snake = [(100, 100), (90, 100), (80, 100)] ∧
    ((init_game 0 0).snake.getD 0 (0, 0)).1 -
      ((init_game 0 0).snake.getD 1 (0, 0)).1 = 10 ∧
    (10 : Int) ≠ GRID_SIZE := by decide

/-- C2 (amended): initialization creates a snake of exactly 3 cells at the
fixed cells `(100,100)`, `(90,100)`, `(80,100)` — spaced 10 units (half a
grid unit) apart horizontally — with the direction pointing rightward and
score 0. -/
theorem init_game_spec (rx ry : Nat) :
    (init_game rx ry).snake = [(100, 100), (90, 100), (80, 100)] ∧
    (init_game rx ry).snake.length = 3 ∧
    (init_game rx ry).snake_dir = (GRID_SIZE, 0) ∧
    (init_game rx ry).score = 0 :=
  ⟨rfl, rfl, rfl, rfl⟩

/-- C3: on a tick whose new head is not the food cell, the snake length is
unchanged. -/
theorem tick_length_no_food (s : GameState) (rx ry : Nat)
    (_hne : s.snake ≠ []) (hfood : new_head_of s ≠ s.food) :
    (tick s rx ry).snake.length = s.snake.length := by
  simp only [tick]
  rw [if_neg hfood, List.length_dropLast, List.length_cons]
  omega

/-- C3 witness: the theorem at the concrete state `exPlain`. -/
theorem tick_length_no_food_witness :
    (tick exPlain 1 1).snake.length = exPlain.snake.length :=
  tick_length_no_food exPlain 1 1 (by decide) (by decide)

/-- C4: on a tick whose new head equals the food cell, the snake length and
the score both grow by exactly one. -/
theorem tick_length_food (s : GameState) (rx ry : Nat)
    (_hne : s.snake ≠ []) (hfood : new_head_of s = s.food) :
    (tick s rx ry).snake.length = s.snake.length + 1 ∧
    (tick s rx ry).score = s.score + 1 := by
  constructor
  · simp only [tick]
    rw [if_pos hfood, List.length_cons]
  · simp only [tick]
    rw [if_pos hfood]

/-- C4 witness: the theorem at the concrete state `exEat`. -/
theorem tick_length_food_witness :
    (tick exEat 8 9).snake.length = exEat.snake.length + 1 ∧
    (tick exEat 8 9).score = exEat.score + 1 :=
  tick_length_food exEat 8 9 (by decide) (by decide)

/-- C5: a tick whose new head is out of the board bounds ends the
session. -/
theorem tick_wall_ends (s : GameState) (rx ry : Nat)
    (hob : out_of_bounds (new_head_of s)) :
    (tick s rx ry).running = false := by
  simp only [tick]
  rw [if_pos (Or.inr hob)]

/-- C5 witness: the theorem at the concrete state `exWallLeft`, whose next
head `(-20,100)` has `x < 0`. -/
theorem tick_wall_ends_witness :
    (tick exWallLeft 4 4).running = false :=
  tick_wall_ends exWallLeft 4 4 (by decide)

/-- C6: a key event leaves the direction unchanged exactly when it requests
the opposite of the current direction; otherwise it replaces the direction
with the requested one. -/
theorem handle_key_reversal (k : Key) (d : Cell) :
    handle_key k d = if dir_of k = opposite d then d else dir_of k := by
  obtain ⟨x, y⟩ := d
  cases k with
  | up =>
    by_cases h : ((x : Int), (y : Int)) = (0, 20)
    · injection h with hx hy
      subst hx
      subst hy
      decide
    · have hc : ¬(((0 : Int), (-20 : Int)) = (-x, -y)) := by
        rw [Prod.mk.injEq] at h ⊢
        omega
      simp only [handle_key, dir_of, opposite, GRID_SIZE]
      rw [if_pos h, if_neg hc]
  | down =>
    by_cases h : ((x : Int), (y : Int)) = (0, -20)
    · injection h with hx hy
      subst hx
      subst hy
      decide
    · have hc : ¬(((0 : Int), (20 : Int)) = (-x, -y)) := by
        rw [Prod.mk.injEq] at h ⊢
        omega
      simp only [handle_key, dir_of, opposite, GRID_SIZE]
      rw [if_pos h, if_neg hc]
  | left =>
    by_cases h : ((x : Int), (y : Int)) = (20, 0)
    · injection h with hx hy
      subst hx
      subst hy
      decide
    · have hc : ¬(((-20 : Int), (0 : Int)) = (-x, -y)) := by
        rw [Prod.mk.injEq] at h ⊢
        omega
      simp only [handle_key, dir_of, opposite, GRID_SIZE]
      rw [if_pos h, if_neg hc]
  | right =>
    by_cases h : ((x : Int), (y : Int)) = (-20, 0)
    · injection h with hx hy
      subst hx
      subst hy
      decide
    · have hc : ¬(((20 : Int), (0 : Int)) = (-x, -y)) := by
        rw [Prod.mk.injEq] at h ⊢
        omega
      simp only [handle_key, dir_of, opposite, GRID_SIZE]
      rw [if_pos h, if_neg hc]

/-- C7: every food cell produced from in-range random draws — at
initialization or on an eating tick — lies in `[0,600) × [0,400)` and is
aligned to the 20-unit grid. -/
theorem spawn_food_ok (s : GameState) (rx ry : Nat)
    (hrx : rx ≤ 29) (hry : ry ≤ 19) :
    food_ok (init_game rx ry).food ∧
    (new_head_of s = s.food → food_ok (tick s rx ry).food) := by
  have hok : food_ok (spawn_food rx ry) := by
    simp only [food_ok, spawn_food, WIDTH, HEIGHT, GRID_SIZE]
    refine ⟨?_, ?_, ?_, ?_, ?_, ?_⟩ <;> omega
  refine ⟨hok, fun hfood => ?_⟩
  simp only [tick]
  rw [if_pos hfood]
  exact hok

/-- C7 witness: the theorem at the concrete draws `(5, 7)` and the eating
state `exEat`. -/
theorem spawn_food_ok_witness :
    food_ok (init_game 5 7).food ∧ food_ok (tick exEat 5 7).food :=
  ⟨(spawn_food_ok exEat 5 7 (by decide) (by decide)).1,
   (spawn_food_ok exEat 5 7 (by decide) (by decide)).2 (by decide)⟩

/-- C8: the snake body has no duplicate cells at initialization, and any
tick that leaves the session running preserves that property. -/
theorem snake_nodup_invariant (s : GameState) (rx ry sx sy : Nat) :
    (init_game sx sy).snake.Nodup ∧
    (s.snake.Nodup → (tick s rx ry).running = true →
      (tick s rx ry).snake.Nodup) := by
  constructor
  · show ([((100 : Int), (100 : Int)), (90, 100), (80, 100)]).Nodup
    decide
  · intro hnd hrun
    have hcol : ¬(new_head_of s ∈ s.snake ∨ out_of_bounds (new_head_of s)) := by
      intro hc
      simp only [tick] at hrun
      rw [if_pos hc] at hrun
      exact Bool.false_ne_true hrun
    have hmem : new_head_of s ∉ s.snake := fun hm => hcol (Or.inl hm)
    have hcons : (new_head_of s :: s.snake).Nodup :=
      List.nodup_cons.mpr ⟨hmem, hnd⟩
    simp only [tick]
    split
    · exact hcons
    · exact hcons.sublist (List.dropLast_sublist _)

/-- C8 witness: the preservation part of the theorem at the concrete state
`exAlive`, whose tick keeps the session running. -/
theorem snake_nodup_invariant_witness :
    (init_game 0 0).snake.Nodup ∧ (tick exAlive 0 0).snake.Nodup :=
  ⟨(snake_nodup_invariant exAlive 0 0 0 0).1,
   (snake_nodup_invariant exAlive 0 0 0 0).2 (by decide) (by decide)⟩

/-- C9: a tick whose new head is out of bounds ends the session and still
appends that out-of-bounds cell as the head of the final snake. -/
theorem tick_wall_head (s : GameState) (rx ry : Nat)
    (hne : s.snake ≠ []) (hob : out_of_bounds (new_head_of s)) :
    (tick s rx ry).running = false ∧
    (tick s rx ry).snake.head? = some (new_head_of s) := by
  constructor
  · simp only [tick]
    rw [if_pos (Or.inr hob)]
  · simp only [tick]
    split
    · rfl
    · exact head_dropLast_cons (new_head_of s) s.snake hne

/-- C9 witness: the theorem at the concrete state `exWallRight`, whose next
head `(600,100)` has `x = WIDTH`. -/
theorem tick_wall_head_witness :
    (tick exWallRight 6 6).running = false ∧
    (tick exWallRight 6 6).snake.head? = some (new_head_of exWallRight) :=
  tick_wall_head exWallRight 6 6 (by decide) (by decide)

/-- C10: when the new head equals the food cell and also lies in the body,
the session ends, yet on that same tick the score increments, the food is
regenerated from the fresh random draws, and the tail is not removed. -/
theorem tick_food_in_body (s : GameState) (rx ry : Nat)
    (hfood : new_head_of s = s.food) (hmem : new_head_of s ∈ s.snake) :
    (tick s rx ry).running = false ∧
    (tick s rx ry).score = s.score + 1 ∧
    (tick s rx ry).food = spawn_food rx ry ∧
    (tick s rx ry).snake = new_head_of s :: s.snake := by
  refine ⟨?_, ?_, ?_, ?_⟩ <;> simp only [tick]
  · rw [if_pos (Or.inl hmem)]
  · rw [if_pos hfood]
  · rw [if_pos hfood]
  · rw [if_pos hfood]

/-- C10 witness: the theorem at the concrete state `exFoodInBody`. -/
theorem tick_food_in_body_witness :
    (tick exFoodInBody 3 5).running = false ∧
    (tick exFoodInBody 3 5).score = exFoodInBody.score + 1 ∧
    (tick exFoodInBody 3 5).food = spawn_food 3 5 ∧
    (tick exFoodInBody 3 5).snake = new_head_of exFoodInBody :: exFoodInBody.snake :=
  tick_food_in_body exFoodInBody 3 5 (by decide) (by decide)

end Snake
